import Mathlib

/-!
Shallow embedding of `apps/server/src/cleanup.ts`: the maintenance pipeline
`cleanupEventsDB` (age retention, payload truncation, share expiry,
compaction, conditional backup rotation with schema re-initialization) and
the read-only `getDatabaseStats` reporter, together with theorems checking
the specification's claims against this embedding.
-/

namespace Cleanup

/-- JSON values, modelling the text stored in the `payload` column.  The
column always holds serialized JSON written by the ingestion server; the
embedding represents it structurally. -/
inductive JsonVal where
  | null : JsonVal
  | bool (b : Bool) : JsonVal
  | num (n : Int) : JsonVal
  | str (s : String) : JsonVal
  | arr (elems : List JsonVal) : JsonVal
  | obj (fields : List (String × JsonVal)) : JsonVal
deriving Repr

/-- JSON string escaping of one character, as produced by SQLite's JSON
serializer for the characters relevant here. -/
def escapeChar (c : Char) : List Char :=
  if c = '"' then ['\\', '"']
  else if c = '\\' then ['\\', '\\']
  else [c]

/-- Escape every character of a list. -/
def escapeList : List Char → List Char
  | [] => []
  | c :: cs => escapeChar c ++ escapeList cs

/-- Escape a string for embedding in JSON text. -/
def jsonEscape (s : String) : String :=
  String.mk (escapeList s.data)

mutual

/-- Minified JSON serialization, as SQLite's `json_object` produces. -/
def serialize : JsonVal → String
  | .null => "null"
  | .bool true => "true"
  | .bool false => "false"
  | .num n => toString n
  | .str s => "\"" ++ jsonEscape s ++ "\""
  | .arr xs => "[" ++ serializeElems xs ++ "]"
  | .obj fs => "\x7b" ++ serializeFields fs ++ "\x7d"

/-- Comma-separated serialization of array elements. -/
def serializeElems : List JsonVal → String
  | [] => ""
  | [x] => serialize x
  | x :: y :: xs => serialize x ++ "," ++ serializeElems (y :: xs)

/-- Comma-separated serialization of object fields. -/
def serializeFields : List (String × JsonVal) → String
  | [] => ""
  | [(k, v)] => "\"" ++ jsonEscape k ++ "\":" ++ serialize v
  | (k, v) :: f :: fs =>
      "\"" ++ jsonEscape k ++ "\":" ++ serialize v ++ "," ++ serializeFields (f :: fs)

end

/-- `LENGTH(payload)` in the SQL of `cleanup.ts`: the length of the stored
JSON text of the payload. -/
def payloadLength (p : JsonVal) : Nat := (serialize p).length

/-- First binding of `key` in an object's field list (SQLite JSON path
lookup uses the first match). -/
def lookupField : List (String × JsonVal) → String → Option JsonVal
  | [], _ => none
  | (k, v) :: fs, key => if k = key then some v else lookupField fs key

/-- `json_extract(payload, '$.key')` as consumed by the surrounding
`json_object` call: a primitive JSON value passes through; an object or
array value is re-embedded as its JSON text; a missing key or a non-object
payload yields SQL NULL, which `json_object` renders as JSON null. -/
def extractForMarker (p : JsonVal) (key : String) : JsonVal :=
  match p with
  | .obj fs =>
    match lookupField fs key with
    | some (.arr xs) => .str (serialize (.arr xs))
    | some (.obj gs) => .str (serialize (.obj gs))
    | some v => v
    | none => .null
  | _ => .null

/-- Whether the payload is a JSON object carrying `key`. -/
def hasField (p : JsonVal) (key : String) : Bool :=
  match p with
  | .obj fs => (lookupField fs key).isSome
  | _ => false

/-- A row of the `events` table (schema at `cleanup.ts` lines 86-97). -/
structure Event where
  id : Nat
  source_app : String
  session_id : String
  hook_event_type : String
  payload : JsonVal
  chat : Option String
  summary : Option String
  timestamp : Int
deriving Repr

/-- A row of the `themes` table (lines 100-117).  The `rating` REAL column
is never read or written by the cleanup logic, so it is modelled as an
integer-valued placeholder. -/
structure Theme where
  id : String
  name : String
  displayName : String
  description : Option String
  colors : String
  isPublic : Bool
  authorId : Option String
  authorName : Option String
  createdAt : Int
  updatedAt : Int
  tags : Option String
  downloadCount : Int
  rating : Int
  ratingCount : Int
deriving Repr, DecidableEq

/-- A row of the `theme_shares` table (lines 120-132). -/
structure ThemeShare where
  id : String
  themeId : String
  shareToken : String
  expiresAt : Option Int
  isPublic : Bool
  allowedUsers : Option String
  createdAt : Int
  accessCount : Int
deriving Repr, DecidableEq

/-- A row of the `theme_ratings` table (lines 135-146). -/
structure ThemeRating where
  id : String
  themeId : String
  userId : String
  rating : Int
  comment : Option String
  createdAt : Int
deriving Repr, DecidableEq

/-- The row contents of the four tables of `events.db`. -/
structure Store where
  events : List Event
  themes : List Theme
  theme_shares : List ThemeShare
  theme_ratings : List ThemeRating
deriving Repr

/-- Milliseconds per day, `24 * 60 * 60 * 1000`. -/
def msPerDay : Int := 24 * 60 * 60 * 1000

/-- `sevenDaysAgo` at line 18: `Date.now() - 7 * 24 * 60 * 60 * 1000`. -/
def retentionCutoff (now : Int) : Int := now - 7 * msPerDay

/-- `oneDayAgo` at line 23: `Date.now() - 24 * 60 * 60 * 1000`. -/
def truncationCutoff (now : Int) : Int := now - msPerDay

/-- Payload size threshold of the truncation step (line 33). -/
def payloadSizeThreshold : Nat := 10000

/-- Rotation size threshold, `50 * 1024 * 1024` bytes (line 65). -/
def rotationThreshold : Nat := 50 * 1024 * 1024

/-- Step 1 (line 19): `DELETE FROM events WHERE timestamp < sevenDaysAgo`;
the rows kept are those not matching the WHERE clause. -/
def applyAgeRetention (now : Int) (events : List Event) : List Event :=
  events.filter fun e => !decide (e.timestamp < retentionCutoff now)

/-- The replacement payload built by the UPDATE at lines 24-34:
`json_object('truncated', true, 'original_size', LENGTH(payload),
'source_app', json_extract(payload, '$.source_app'), ...)`. -/
def truncationMarker (p : JsonVal) : JsonVal :=
  .obj [("truncated", .bool true),
        ("original_size", .num (payloadLength p)),
        ("source_app", extractForMarker p "source_app"),
        ("session_id", extractForMarker p "session_id"),
        ("hook_event_name", extractForMarker p "hook_event_name")]

/-- WHERE clause of the UPDATE (line 33):
`LENGTH(payload) > 10000 AND timestamp < oneDayAgo`. -/
def shouldTruncate (now : Int) (e : Event) : Bool :=
  decide (payloadSizeThreshold < payloadLength e.payload) &&
    decide (e.timestamp < truncationCutoff now)

/-- Step 2 (lines 22-36): replace each matching payload by its marker. -/
def truncateLargePayloads (now : Int) (events : List Event) : List Event :=
  events.map fun e =>
    if shouldTruncate now e then { e with payload := truncationMarker e.payload } else e

/-- Step 3 (lines 38-43): `DELETE FROM theme_shares WHERE expiresAt IS NOT
NULL AND expiresAt < now`; kept rows are those not matching. -/
def expireThemeShares (now : Int) (shares : List ThemeShare) : List ThemeShare :=
  shares.filter fun s =>
    match s.expiresAt with
    | none => true
    | some t => !decide (t < now)

/-- Row contents of the live database after the three retention steps.
VACUUM, REINDEX and ANALYZE (steps 4-6) change no row. -/
def postRetentionStore (now : Int) (s : Store) : Store :=
  { s with
    events := truncateLargePayloads now (applyAgeRetention now s.events),
    theme_shares := expireThemeShares now s.theme_shares }

/-- The filesystem state the run touches: the live `events.db` contents and
size, and the `backups` directory. -/
structure FsState where
  liveDB : Store
  liveSize : Nat
  backupsDirExists : Bool
  backupFiles : List (String × Store)
deriving Repr

/-- One `console.log` / `console.error` line of the run, in order. -/
inductive LogEntry where
  | starting : LogEntry
  | initialSizeLogged (bytes : Nat) : LogEntry
  | deletedOldEvents (n : Nat) : LogEntry
  | truncatedPayloads (n : Nat) : LogEntry
  | deletedExpiredShares (n : Nat) : LogEntry
  | vacuumStarted : LogEntry
  | reindexStarted : LogEntry
  | finalSizeLogged (bytes : Nat) : LogEntry
  | stillLargeCreatingBackup : LogEntry
  | createdBackup (name : String) : LogEntry
  | createdFreshDB : LogEntry
  | completed : LogEntry
  | cleanupError : LogEntry
deriving Repr, DecidableEq

/-- Outcome of one maintenance run: resulting filesystem state, the log
stream, and whether an exception escaped the function. -/
structure RunResult where
  fs : FsState
  log : List LogEntry
  raised : Bool
deriving Repr

/-- Line 73: `new Date().toISOString().replace(/[:.]/g, '-')`. -/
def normalizeTimestamp (s : String) : String :=
  s.map fun c => if c = ':' || c = '.' then '-' else c

/-- Line 74: `backups/events_${timestamp}.db`. -/
def backupPath (isoNow : String) : String :=
  "backups/events_" ++ normalizeTimestamp isoNow ++ ".db"

/-- The row contents of a freshly initialized database: the four canonical
tables created at lines 86-146, each with zero rows. -/
def freshStore : Store :=
  { events := [], themes := [], theme_shares := [], theme_ratings := [] }

/-- The maintenance run `cleanupEventsDB` (lines 4-168), embedded over an
explicit state.  Environment inputs the code reads from outside the row
data are parameters: `now` (the clock), `isoNow` (the ISO string of the
clock used for the backup name), `finalSize` (the file size measured after
VACUUM at line 60), and `renameFails` (whether `renameSync` at line 75
throws).  The whole body runs inside one try/catch, so no exception ever
escapes; on a rename failure the backups directory has already been
ensured, the mutations of steps 1-6 are already committed, and control
jumps to the catch which logs the error and returns. -/
def cleanupEventsDB (fs : FsState) (now : Int) (isoNow : String)
    (finalSize : Nat) (renameFails : Bool) : RunResult :=
  let db0 := fs.liveDB
  let deletedOld := (db0.events.filter fun e => decide (e.timestamp < retentionCutoff now)).length
  let events1 := applyAgeRetention now db0.events
  let truncCount := (events1.filter (shouldTruncate now)).length
  let events2 := truncateLargePayloads now events1
  let shares1 := expireThemeShares now db0.theme_shares
  let db1 : Store := { db0 with events := events2, theme_shares := shares1 }
  let logPre : List LogEntry :=
    [.starting, .initialSizeLogged fs.liveSize,
     .deletedOldEvents deletedOld, .truncatedPayloads truncCount,
     .deletedExpiredShares (db0.theme_shares.length - shares1.length),
     .vacuumStarted, .reindexStarted, .finalSizeLogged finalSize]
  if rotationThreshold < finalSize then
    if renameFails then
      { fs := { liveDB := db1, liveSize := finalSize, backupsDirExists := true,
                backupFiles := fs.backupFiles },
        log := logPre ++ [.stillLargeCreatingBackup, .cleanupError],
        raised := false }
    else
      { fs := { liveDB := freshStore, liveSize := 0, backupsDirExists := true,
                backupFiles := fs.backupFiles ++ [(backupPath isoNow, db1)] },
        log := logPre ++ [.stillLargeCreatingBackup, .createdBackup (backupPath isoNow),
                          .createdFreshDB, .completed],
        raised := false }
  else
    { fs := { fs with liveDB := db1, liveSize := finalSize },
      log := logPre ++ [.completed],
      raised := false }

/-- Fixed-width decimal rendering helpers for the ISO timestamp. -/
def pad2 (n : Nat) : String :=
  if n < 10 then "0" ++ toString n else toString n

/-- Three-digit zero-padded rendering. -/
def pad3 (n : Nat) : String :=
  if n < 10 then "00" ++ toString n
  else if n < 100 then "0" ++ toString n
  else toString n

/-- Four-digit zero-padded rendering. -/
def pad4 (n : Nat) : String :=
  if n < 10 then "000" ++ toString n
  else if n < 100 then "00" ++ toString n
  else if n < 1000 then "0" ++ toString n
  else toString n

/-- Days since 1970-01-01 to a civil (year, month, day) date, for the
proleptic Gregorian calendar. -/
def civilFromDays (z0 : Int) : Int × Nat × Nat :=
  let z := z0 + 719468
  let era : Int := z.ediv 146097
  let doe : Nat := (z - era * 146097).toNat
  let yoe : Nat := (doe - doe / 1460 + doe / 36524 - doe / 146096) / 365
  let y : Int := (yoe : Int) + era * 400
  let doy : Nat := doe - (365 * yoe + yoe / 4 - yoe / 100)
  let mp : Nat := (5 * doy + 2) / 153
  let d : Nat := doy - (153 * mp + 2) / 5 + 1
  let m : Nat := if mp < 10 then mp + 3 else mp - 9
  (if m ≤ 2 then y + 1 else y, m, d)

/-- `Date.prototype.toISOString` on an epoch-millisecond clock value,
`YYYY-MM-DDTHH:MM:SS.mmmZ` (modelled for the four-digit-year range). -/
def toISOString (ms : Int) : String :=
  let msOfDay : Nat := (ms.emod 86400000).toNat
  let days : Int := ms.ediv 86400000
  let c := civilFromDays days
  let hh := msOfDay / 3600000
  let mm := msOfDay % 3600000 / 60000
  let ss := msOfDay % 60000 / 1000
  let mmm := msOfDay % 1000
  pad4 c.1.toNat ++ "-" ++ pad2 c.2.1 ++ "-" ++ pad2 c.2.2 ++ "T" ++
    pad2 hh ++ ":" ++ pad2 mm ++ ":" ++ pad2 ss ++ "." ++ pad3 mmm ++ "Z"

/-- `${(size / 1024 / 1024).toFixed(2)} MB` (line 185), modelled with
round-to-nearest hundredths of a mebibyte. -/
def formatMB (bytes : Nat) : String :=
  let hundredths := (bytes * 100 + 524288) / 1048576
  toString (hundredths / 100) ++ "." ++ pad2 (hundredths % 100) ++ " MB"

/-- The record returned by `getDatabaseStats` (lines 171-179). -/
structure DBStats where
  size : Nat
  sizeFormatted : String
  totalEvents : Nat
  eventsLast7Days : Nat
  oldEvents : Nat
  largePayloads : Nat
  lastCleanup : String
deriving Repr, DecidableEq

/-- `getDatabaseStats` (lines 180-219).  The function only runs SELECT
statements, so the store it leaves behind is returned alongside the stats
to make mutation observable.  `fileSize` is the measured size of
`events.db`; `now` is the clock at the moment of the call; `readFails`
says whether any read throws, in which case the catch at lines 208-218
returns the sentinel snapshot. -/
def getDatabaseStats (store : Store) (fileSize : Nat) (now : Int)
    (readFails : Bool) : Store × DBStats :=
  if readFails then
    (store,
     { size := 0, sizeFormatted := "0 MB", totalEvents := 0,
       eventsLast7Days := 0, oldEvents := 0, largePayloads := 0,
       lastCleanup := "Never" })
  else
    (store,
     { size := fileSize,
       sizeFormatted := formatMB fileSize,
       totalEvents := store.events.length,
       eventsLast7Days :=
         (store.events.filter fun e => decide (retentionCutoff now < e.timestamp)).length,
       oldEvents :=
         (store.events.filter fun e => decide (e.timestamp < retentionCutoff now)).length,
       largePayloads :=
         (store.events.filter fun e => decide (payloadSizeThreshold < payloadLength e.payload)).length,
       lastCleanup := toISOString now })


/-! ### Shared helper lemmas -/

/-- The all-'a' string of length `n`, used to build concrete oversized payloads. -/
def repA (n : Nat) : String := String.mk (List.replicate n 'a')

theorem escapeChar_a : escapeChar 'a' = ['a'] := by decide

theorem escapeList_replicate_a (n : Nat) :
    escapeList (List.replicate n 'a') = List.replicate n 'a' := by
  induction n with
  | zero => rfl
  | succ n ih => simp [List.replicate_succ, escapeList, escapeChar_a, ih]

theorem jsonEscape_repA (n : Nat) : jsonEscape (repA n) = repA n := by
  simp [jsonEscape, repA, escapeList_replicate_a]

theorem repA_length (n : Nat) : (repA n).length = n := by
  simp [repA, String.length]

theorem serialize_str_repA (n : Nat) :
    serialize (.str (repA n)) = "\"" ++ repA n ++ "\"" := by
  simp [serialize, jsonEscape_repA]

theorem payloadLength_str_repA (n : Nat) : payloadLength (.str (repA n)) = n + 2 := by
  have h1 : ("\"" : String).length = 1 := rfl
  simp [payloadLength, serialize_str_repA, String.length_append, repA_length, h1]
  omega

/-! ### Claim theorems -/

/-- Claim C2: for every store and run time, the age-retention step removes
exactly the events with timestamp strictly older than `now - 7 days`, and
keeps every event with timestamp at or after that cutoff verbatim (the
result is the filter of the input keeping exactly those records, so all
fields of every kept record are unchanged). -/
theorem applyAgeRetention_spec (now : Int) (events : List Event) :
    applyAgeRetention now events
      = events.filter (fun e => decide (retentionCutoff now ≤ e.timestamp)) ∧
    ∀ e, e ∈ applyAgeRetention now events ↔
      e ∈ events ∧ retentionCutoff now ≤ e.timestamp := by
  constructor
  · unfold applyAgeRetention
    apply List.filter_congr
    intro e _
    by_cases h : e.timestamp < retentionCutoff now <;> simp [h] <;> omega
  · intro e
    unfold applyAgeRetention
    rw [List.mem_filter]
    simp [Int.not_lt]

/-- Claim C5: the share-expiry step removes exactly the ThemeShare records
with non-null expiry strictly below `now`; every share with null expiry or
with expiry at or after `now` remains, as the identical record (hence with
`accessCount` and all other fields unchanged). -/
theorem expireThemeShares_spec (now : Int) (shares : List ThemeShare) :
    expireThemeShares now shares
      = shares.filter (fun s =>
          match s.expiresAt with
          | none => true
          | some t => decide (now ≤ t)) ∧
    ∀ s, s ∈ expireThemeShares now shares ↔
      s ∈ shares ∧ (s.expiresAt = none ∨ ∃ t, s.expiresAt = some t ∧ now ≤ t) := by
  constructor
  · unfold expireThemeShares
    apply List.filter_congr
    intro s _
    cases h : s.expiresAt with
    | none => rfl
    | some t => by_cases ht : t < now <;> simp [ht] <;> omega
  · intro s
    unfold expireThemeShares
    rw [List.mem_filter]
    cases h : s.expiresAt with
    | none => simp [h]
    | some t =>
      by_cases ht : t < now <;> simp [h, ht] <;> omega

/-- Claim C7: `getDatabaseStats` never mutates the store (the store it
leaves behind equals its input in both the success and the failure branch),
and on a read failure it returns the complete zero/sentinel snapshot
instead of propagating the error. -/
theorem getDatabaseStats_readonly_sentinel (store : Store) (fileSize : Nat) (now : Int) :
    (getDatabaseStats store fileSize now false).1 = store ∧
    (getDatabaseStats store fileSize now true).1 = store ∧
    (getDatabaseStats store fileSize now true).2
      = { size := 0, sizeFormatted := "0 MB", totalEvents := 0,
          eventsLast7Days := 0, oldEvents := 0, largePayloads := 0,
          lastCleanup := "Never" } :=
  ⟨rfl, rfl, rfl⟩

/-- Claim C9: the `lastCleanup` field is not a persisted record of the last
maintenance run: on a successful call it is the ISO string of the moment of
the stats call itself (for every store, whatever cleanups did or did not
happen), and on a failed call it is the string "Never". -/
theorem stats_lastCleanup_spec (store : Store) (fileSize : Nat) (now : Int) :
    (getDatabaseStats store fileSize now false).2.lastCleanup = toISOString now ∧
    (getDatabaseStats store fileSize now true).2.lastCleanup = "Never" :=
  ⟨rfl, rfl⟩

/-- Claim C3: one truncation run replaces the payload of every event whose
payload text is longer than 10,000 and whose timestamp is older than
`now - 1 day` by the marker object carrying `truncated = true`, the pre-run
payload length as `original_size`, and the `source_app`, `session_id` and
`hook_event_name` values extracted from the pre-run payload; every other
event, in particular every large payload younger than one day, is kept
verbatim. -/
theorem truncateLargePayloads_spec (now : Int) (events : List Event) :
    truncateLargePayloads now events = events.map (fun e =>
      if payloadSizeThreshold < payloadLength e.payload ∧ e.timestamp < truncationCutoff now then
        { e with payload := (JsonVal.obj
            [("truncated", JsonVal.bool true),
             ("original_size", JsonVal.num (payloadLength e.payload)),
             ("source_app", extractForMarker e.payload "source_app"),
             ("session_id", extractForMarker e.payload "session_id"),
             ("hook_event_name", extractForMarker e.payload "hook_event_name")]) }
      else e) := by
  unfold truncateLargePayloads
  apply List.map_congr_left
  intro e _
  by_cases h : payloadSizeThreshold < payloadLength e.payload ∧ e.timestamp < truncationCutoff now
  · have hb : shouldTruncate now e = true := by
      simp [shouldTruncate, h.1, h.2]
    simp [hb, h, truncationMarker]
  · have hb : shouldTruncate now e = false := by
      simp [shouldTruncate]
      intro h1
      have h2 : ¬ e.timestamp < truncationCutoff now := fun hlt => h ⟨h1, hlt⟩
      omega
    simp [hb, h]

/-- Per-cons counting step for the C8 inequality. -/
theorem stats_counts_le (c : Int) (l : List Event) :
    (l.filter fun e => decide (c < e.timestamp)).length
      + (l.filter fun e => decide (e.timestamp < c)).length ≤ l.length := by
  induction l with
  | nil => simp
  | cons a t ih =>
    by_cases h1 : c < a.timestamp <;> by_cases h2 : a.timestamp < c <;>
      simp [List.filter_cons, h1, h2] <;> omega

/-- Strict version of `stats_counts_le` when some event sits exactly on the
cutoff. -/
theorem stats_counts_lt (c : Int) (l : List Event) (e : Event)
    (he : e ∈ l) (ht : e.timestamp = c) :
    (l.filter fun x => decide (c < x.timestamp)).length
      + (l.filter fun x => decide (x.timestamp < c)).length < l.length := by
  induction l with
  | nil => cases he
  | cons a t ih =>
    rcases List.mem_cons.mp he with heq | hmem
    · subst heq
      have h1 : ¬ c < e.timestamp := by omega
      have h2 : ¬ e.timestamp < c := by omega
      have hle := stats_counts_le c t
      simp [List.filter_cons, h1, h2]
      omega
    · have hlt := ih hmem
      by_cases h1 : c < a.timestamp <;> by_cases h2 : a.timestamp < c <;>
        simp [List.filter_cons, h1, h2] <;> omega

/-- Claim C8: an event whose timestamp equals exactly `now - 7 days` is
counted in `totalEvents` but in neither `eventsLast7Days` (strict `>`) nor
`oldEvents` (strict `<`); consequently `eventsLast7Days + oldEvents` never
exceeds `totalEvents`, strictly so whenever some event sits exactly on the
cutoff. -/
theorem stats_cutoff_event_counts (store : Store) (fileSize : Nat) (now : Int) :
    (getDatabaseStats store fileSize now false).2.eventsLast7Days
        + (getDatabaseStats store fileSize now false).2.oldEvents
      ≤ (getDatabaseStats store fileSize now false).2.totalEvents ∧
    ∀ e ∈ store.events, e.timestamp = retentionCutoff now →
      e ∉ store.events.filter (fun x => decide (retentionCutoff now < x.timestamp)) ∧
      e ∉ store.events.filter (fun x => decide (x.timestamp < retentionCutoff now)) ∧
      (getDatabaseStats store fileSize now false).2.eventsLast7Days
          + (getDatabaseStats store fileSize now false).2.oldEvents
        < (getDatabaseStats store fileSize now false).2.totalEvents := by
  refine ⟨?_, ?_⟩
  · simpa [getDatabaseStats] using stats_counts_le (retentionCutoff now) store.events
  · intro e he ht
    refine ⟨?_, ?_, ?_⟩
    · simp [List.mem_filter, ht]
    · simp [List.mem_filter, ht]
    · simpa [getDatabaseStats] using
        stats_counts_lt (retentionCutoff now) store.events e he ht

/-- Concrete event sitting exactly on the seven-day cutoff for time
`7 * msPerDay`. -/
def cutoffEvent : Event :=
  { id := 0, source_app := "a", session_id := "b", hook_event_type := "c",
    payload := .null, chat := none, summary := none, timestamp := 0 }

/-- Concrete store for the C8 witness. -/
def cutoffStore : Store :=
  { events := [cutoffEvent], themes := [], theme_shares := [], theme_ratings := [] }

/-- Witness for C8 at a store holding one event exactly on the cutoff. -/
theorem stats_cutoff_event_counts_witness :
    cutoffEvent ∈ cutoffStore.events ∧
    cutoffEvent.timestamp = retentionCutoff (7 * msPerDay) ∧
    (getDatabaseStats cutoffStore 0 (7 * msPerDay) false).2.eventsLast7Days
        + (getDatabaseStats cutoffStore 0 (7 * msPerDay) false).2.oldEvents
      < (getDatabaseStats cutoffStore 0 (7 * msPerDay) false).2.totalEvents := by
  have hmem : cutoffEvent ∈ cutoffStore.events := List.mem_singleton.mpr rfl
  have hts : cutoffEvent.timestamp = retentionCutoff (7 * msPerDay) := by
    simp [cutoffEvent, retentionCutoff]
  exact ⟨hmem, hts,
    ((stats_cutoff_event_counts cutoffStore 0 (7 * msPerDay)).2 cutoffEvent hmem hts).2.2⟩

/-- Claim C1: when the post-compaction size is at or below 50 MB the
rotation step does nothing (no backup file appears, the backups directory
is not created, and the live file keeps exactly the rows the retention and
compaction steps produced); when it is strictly above 50 MB, exactly one
backup file is created holding exactly the pre-rotation live contents, the
backups directory exists afterwards, and the live path holds a freshly
initialized store with the canonical four tables all empty. -/
theorem cleanup_rotation_spec (fs : FsState) (now : Int) (isoNow : String) (finalSize : Nat) :
    (finalSize ≤ rotationThreshold →
      (cleanupEventsDB fs now isoNow finalSize false).fs.backupFiles = fs.backupFiles ∧
      (cleanupEventsDB fs now isoNow finalSize false).fs.backupsDirExists = fs.backupsDirExists ∧
      (cleanupEventsDB fs now isoNow finalSize false).fs.liveDB
        = postRetentionStore now fs.liveDB) ∧
    (rotationThreshold < finalSize →
      (cleanupEventsDB fs now isoNow finalSize false).fs.backupFiles
        = fs.backupFiles ++ [(backupPath isoNow, postRetentionStore now fs.liveDB)] ∧
      (cleanupEventsDB fs now isoNow finalSize false).fs.backupsDirExists = true ∧
      (cleanupEventsDB fs now isoNow finalSize false).fs.liveDB = freshStore ∧
      freshStore.events = [] ∧ freshStore.themes = [] ∧
      freshStore.theme_shares = [] ∧ freshStore.theme_ratings = []) := by
  constructor
  · intro h
    have h2 : ¬ rotationThreshold < finalSize := by omega
    refine ⟨?_, ?_, ?_⟩ <;> simp [cleanupEventsDB, h2, postRetentionStore]
  · intro h
    refine ⟨?_, ?_, ?_, rfl, rfl, rfl, rfl⟩ <;> simp [cleanupEventsDB, h, postRetentionStore]

/-- Concrete filesystem state for the rotation witnesses. -/
def emptyFs : FsState :=
  { liveDB := { events := [], themes := [], theme_shares := [], theme_ratings := [] },
    liveSize := 0, backupsDirExists := false, backupFiles := [] }

/-- Witness for C1 at a size one byte above the threshold. -/
theorem cleanup_rotation_spec_witness :
    rotationThreshold < 52428801 ∧
    (cleanupEventsDB emptyFs 0 "t" 52428801 false).fs.backupFiles
      = emptyFs.backupFiles ++ [(backupPath "t", postRetentionStore 0 emptyFs.liveDB)] ∧
    (cleanupEventsDB emptyFs 0 "t" 52428801 false).fs.backupsDirExists = true ∧
    (cleanupEventsDB emptyFs 0 "t" 52428801 false).fs.liveDB = freshStore := by
  have h : rotationThreshold < 52428801 := by decide
  have hc := (cleanup_rotation_spec emptyFs 0 "t" 52428801).2 h
  exact ⟨h, hc.1, hc.2.1, hc.2.2.1⟩

/-- Claim C6: when the rename throws during rotation, the run still returns
normally, the live database keeps exactly the rows the retention and
compaction steps produced (none of that work is rolled back), no backup
file appears, and the reported log stream shows the retention and
compaction steps as succeeded, shows the error in place of the rotation
result, and never reports a created backup or overall completion. -/
theorem rename_failure_spec (fs : FsState) (now : Int) (isoNow : String)
    (finalSize : Nat) (h : rotationThreshold < finalSize) :
    (cleanupEventsDB fs now isoNow finalSize true).raised = false ∧
    (cleanupEventsDB fs now isoNow finalSize true).fs.liveDB
      = postRetentionStore now fs.liveDB ∧
    (cleanupEventsDB fs now isoNow finalSize true).fs.backupFiles = fs.backupFiles ∧
    (cleanupEventsDB fs now isoNow finalSize true).log
      = [.starting, .initialSizeLogged fs.liveSize,
         .deletedOldEvents
           ((fs.liveDB.events.filter fun e => decide (e.timestamp < retentionCutoff now)).length),
         .truncatedPayloads
           (((applyAgeRetention now fs.liveDB.events).filter (shouldTruncate now)).length),
         .deletedExpiredShares
           (fs.liveDB.theme_shares.length - (expireThemeShares now fs.liveDB.theme_shares).length),
         .vacuumStarted, .reindexStarted, .finalSizeLogged finalSize,
         .stillLargeCreatingBackup, .cleanupError] ∧
    LogEntry.cleanupError ∈ (cleanupEventsDB fs now isoNow finalSize true).log ∧
    LogEntry.completed ∉ (cleanupEventsDB fs now isoNow finalSize true).log ∧
    ∀ name, LogEntry.createdBackup name ∉ (cleanupEventsDB fs now isoNow finalSize true).log := by
  refine ⟨?_, ?_, ?_, ?_, ?_, ?_, ?_⟩ <;>
    simp [cleanupEventsDB, h, postRetentionStore]

/-- Witness for C6 at a size one byte above the threshold. -/
theorem rename_failure_spec_witness :
    rotationThreshold < 52428801 ∧
    (cleanupEventsDB emptyFs 0 "t" 52428801 true).raised = false ∧
    (cleanupEventsDB emptyFs 0 "t" 52428801 true).fs.liveDB
      = postRetentionStore 0 emptyFs.liveDB ∧
    (cleanupEventsDB emptyFs 0 "t" 52428801 true).fs.backupFiles = emptyFs.backupFiles ∧
    LogEntry.completed ∉ (cleanupEventsDB emptyFs 0 "t" 52428801 true).log := by
  have h : rotationThreshold < 52428801 := by decide
  have hc := rename_failure_spec emptyFs 0 "t" 52428801 h
  exact ⟨h, hc.1, hc.2.1, hc.2.2.1, hc.2.2.2.2.2.1⟩

/-! ### Claim C4: truncation idempotence -/

/-- Oversized plain string of 10,200 characters. -/
def bigStr : String := repA 10200

/-- A payload whose `source_app` field alone is larger than the truncation
threshold. -/
def bigPayload : JsonVal := .obj [("source_app", .str bigStr)]

theorem payloadLength_bigPayload : payloadLength bigPayload = 10217 := by
  have h1 : ("\x7b" : String).length = 1 := rfl
  have h2 : ("\x7d" : String).length = 1 := rfl
  have h3 : ("\"" : String).length = 1 := rfl
  have h4 : ("\"source_app\":" : String).length = 13 := rfl
  have hb : bigStr.length = 10200 := repA_length 10200
  have hesc : jsonEscape bigStr = bigStr := jsonEscape_repA 10200
  have hk : jsonEscape "source_app" = "source_app" := rfl
  simp [payloadLength, bigPayload, serialize, serializeFields, hk, hesc,
    String.length_append, h1, h2, h3, h4, hb]

/-- The marker `bigPayload` truncates to, written out. -/
def bigMarker : JsonVal :=
  JsonVal.obj [("truncated", .bool true), ("original_size", .num 10217),
               ("source_app", .str bigStr), ("session_id", .null),
               ("hook_event_name", .null)]

theorem marker_big_eq : truncationMarker bigPayload = bigMarker := by
  unfold truncationMarker bigMarker
  rw [payloadLength_bigPayload]
  simp [bigPayload, extractForMarker, lookupField]

theorem payloadLength_bigMarker : payloadLength bigMarker = 10297 := by
  have hb : bigStr.length = 10200 := repA_length 10200
  have hesc : jsonEscape bigStr = bigStr := jsonEscape_repA 10200
  simp [payloadLength, bigMarker, serialize, serializeFields, hesc,
    String.length_append, hb]
  decide

/-- An event record of age 2 days carrying a given payload. -/
def truncEvent (p : JsonVal) : Event :=
  { id := 1, source_app := "app", session_id := "sess", hook_event_type := "t",
    payload := p, chat := none, summary := none, timestamp := 0 }

/-- The concrete counterexample event for C4. -/
def bigEvent : Event := truncEvent bigPayload

theorem shouldTruncate_truncEvent (p : JsonVal) :
    shouldTruncate (2 * msPerDay) (truncEvent p)
      = decide (payloadSizeThreshold < payloadLength p) := by
  simp [shouldTruncate, truncEvent, truncationCutoff, msPerDay]

theorem truncate_once :
    truncateLargePayloads (2 * msPerDay) [bigEvent]
      = [truncEvent (truncationMarker bigPayload)] := by
  rw [show bigEvent = truncEvent bigPayload from rfl]
  simp [truncateLargePayloads, shouldTruncate_truncEvent, payloadLength_bigPayload,
    payloadSizeThreshold]
  simp [truncEvent]

theorem truncate_twice :
    truncateLargePayloads (2 * msPerDay) (truncateLargePayloads (2 * msPerDay) [bigEvent])
      = [truncEvent (truncationMarker (truncationMarker bigPayload))] := by
  rw [truncate_once]
  have hm : payloadLength (truncationMarker bigPayload) = 10297 := by
    rw [marker_big_eq]; exact payloadLength_bigMarker
  simp [truncateLargePayloads, shouldTruncate_truncEvent, hm, payloadSizeThreshold]
  simp [truncEvent]

/-- Claim C4 is false on the code: a payload whose preserved `source_app`
field is itself larger than the threshold produces a marker longer than
10,000 bytes, so the second run truncates the marker again and changes
`original_size`; applying the truncation step twice to this one-event
record set does not equal applying it once. -/
theorem truncate_not_idempotent :
    truncateLargePayloads (2 * msPerDay) (truncateLargePayloads (2 * msPerDay) [bigEvent])
      ≠ truncateLargePayloads (2 * msPerDay) [bigEvent] := by
  rw [truncate_twice, truncate_once]
  intro h
  have h1 : truncEvent (truncationMarker (truncationMarker bigPayload))
      = truncEvent (truncationMarker bigPayload) := by
    simpa using h
  have h2 : truncationMarker (truncationMarker bigPayload) = truncationMarker bigPayload := by
    have := congrArg Event.payload h1
    simpa [truncEvent] using this
  rw [marker_big_eq] at h2
  simp only [truncationMarker] at h2
  rw [payloadLength_bigMarker] at h2
  simp [bigMarker] at h2

/-- Claim C4 (amended): the truncation step is idempotent on every record
set whose matching events produce markers of serialized length at most the
10,000-byte threshold; a marker is then never truncated again. -/
theorem truncate_idempotent_of_bounded_markers (now : Int) (events : List Event)
    (h : ∀ e ∈ events, shouldTruncate now e = true →
      payloadLength (truncationMarker e.payload) ≤ payloadSizeThreshold) :
    truncateLargePayloads now (truncateLargePayloads now events)
      = truncateLargePayloads now events := by
  unfold truncateLargePayloads
  rw [List.map_map]
  apply List.map_congr_left
  intro e he
  simp only [Function.comp]
  by_cases hc : shouldTruncate now e = true
  · have hle := h e he hc
    have hm : shouldTruncate now { e with payload := truncationMarker e.payload } = false := by
      simp [shouldTruncate]
      intro hgt
      omega
    simp [hc, hm]
  · simp [hc]

/-- Moderate-size payload for the amended-claim witness: larger than the
threshold but with no preserved fields, so its marker is tiny. -/
def medPayload : JsonVal := .str (repA 10100)

/-- The witness event for the amended claim C4. -/
def medEvent : Event := truncEvent medPayload

theorem medMarker_eq :
    truncationMarker medPayload
      = JsonVal.obj [("truncated", .bool true), ("original_size", .num 10102),
                     ("source_app", .null), ("session_id", .null),
                     ("hook_event_name", .null)] := by
  unfold truncationMarker medPayload
  rw [payloadLength_str_repA]
  simp [extractForMarker]

/-- Witness for the amended C4 at a one-event record set whose marker is
below the threshold. -/
theorem truncate_idempotent_of_bounded_markers_witness :
    (∀ e ∈ [medEvent], shouldTruncate (2 * msPerDay) e = true →
      payloadLength (truncationMarker e.payload) ≤ payloadSizeThreshold) ∧
    truncateLargePayloads (2 * msPerDay) (truncateLargePayloads (2 * msPerDay) [medEvent])
      = truncateLargePayloads (2 * msPerDay) [medEvent] := by
  have hh : ∀ e ∈ [medEvent], shouldTruncate (2 * msPerDay) e = true →
      payloadLength (truncationMarker e.payload) ≤ payloadSizeThreshold := by
    intro e he _
    have heq : e = medEvent := List.mem_singleton.mp he
    subst heq
    rw [show medEvent.payload = medPayload from rfl, medMarker_eq]
    decide
  exact ⟨hh, truncate_idempotent_of_bounded_markers _ _ hh⟩

/-! ### Claim C10: marker fields come from the payload blob -/

/-- If the payload is not a JSON object carrying `key`, extraction for the
marker yields JSON null. -/
theorem extractForMarker_of_not_hasField (p : JsonVal) (key : String)
    (h : hasField p key = false) : extractForMarker p key = .null := by
  cases p with
  | obj fs =>
    have hn : lookupField fs key = none := by
      cases hl : lookupField fs key with
      | none => rfl
      | some v => simp [hasField, hl] at h
    simp [extractForMarker, hn]
  | null => rfl
  | bool b => rfl
  | num n => rfl
  | str s => rfl
  | arr xs => rfl

/-- Claim C10: the marker's preserved fields are extracted from the payload
blob, not from the event row's own columns: for a matching event whose
payload is not a JSON object carrying `source_app`, `session_id` or
`hook_event_name`, the payload is still replaced by a marker, and those
marker fields are null, whatever the row's column values are. -/
theorem marker_fields_null_spec (now : Int) (e : Event)
    (h1 : shouldTruncate now e = true)
    (h2 : hasField e.payload "source_app" = false)
    (h3 : hasField e.payload "session_id" = false)
    (h4 : hasField e.payload "hook_event_name" = false) :
    truncateLargePayloads now [e]
      = [{ e with payload := (JsonVal.obj
          [("truncated", JsonVal.bool true),
           ("original_size", JsonVal.num (payloadLength e.payload)),
           ("source_app", JsonVal.null),
           ("session_id", JsonVal.null),
           ("hook_event_name", JsonVal.null)]) }] := by
  simp [truncateLargePayloads, h1, truncationMarker,
    extractForMarker_of_not_hasField _ _ h2,
    extractForMarker_of_not_hasField _ _ h3,
    extractForMarker_of_not_hasField _ _ h4]

/-- Witness event for C10: non-empty row columns, oversized non-object
payload. -/
def nfEvent : Event :=
  { id := 2, source_app := "columnApp", session_id := "columnSess",
    hook_event_type := "PostToolUse", payload := .str (repA 10050),
    chat := none, summary := none, timestamp := 0 }

/-- Witness for C10: the truncated payload's preserved fields are null even
though the row's own columns are non-empty. -/
theorem marker_fields_null_spec_witness :
    shouldTruncate (2 * msPerDay) nfEvent = true ∧
    hasField nfEvent.payload "source_app" = false ∧
    hasField nfEvent.payload "session_id" = false ∧
    hasField nfEvent.payload "hook_event_name" = false ∧
    truncateLargePayloads (2 * msPerDay) [nfEvent]
      = [{ nfEvent with payload := (JsonVal.obj
          [("truncated", JsonVal.bool true),
           ("original_size", JsonVal.num (payloadLength nfEvent.payload)),
           ("source_app", JsonVal.null),
           ("session_id", JsonVal.null),
           ("hook_event_name", JsonVal.null)]) }] := by
  have h1 : shouldTruncate (2 * msPerDay) nfEvent = true := by
    simp [shouldTruncate, nfEvent, payloadLength_str_repA, payloadSizeThreshold,
      truncationCutoff, msPerDay]
  have h2 : hasField nfEvent.payload "source_app" = false := rfl
  have h3 : hasField nfEvent.payload "session_id" = false := rfl
  have h4 : hasField nfEvent.payload "hook_event_name" = false := rfl
  exact ⟨h1, h2, h3, h4, marker_fields_null_spec (2 * msPerDay) nfEvent h1 h2 h3 h4⟩

end Cleanup
